import Mathlib

/-!
Verification development for the bittensor repository core:
the networking utilities (address codec, external-address discovery,
UPnP port mapper), the MSGPACK tensor wire codec, and the axon
request-validation state machine.

Each python function is shallow-embedded as an executable Lean
definition.  Network effects (the results of external lookups, the
router's port-mapping table) are passed in as explicit environment
arguments.  External library semantics (netaddr, msgpack) are embedded
following their documented behaviour, since the repository's functions
delegate to them directly.
-/

/-! ## Address codec (src/bittensor/utils/networking.py)

`int_to_ip`, `ip_to_int` and `ip_version` delegate to
`netaddr.IPAddress`.  We embed netaddr's semantics: a parsed address is
a version tag plus an integer value; constructing an address from a
bare integer prefers IPv4 when the value fits in 32 bits; rendering
uses dotted-quad for IPv4 and compact hex groups for IPv6; malformed
input yields failure (netaddr raises `AddrFormatError`, embedded as
`none`). -/

inductive IPVersion where
  | v4
  | v6
deriving DecidableEq, Repr

structure IPAddress where
  version : IPVersion
  val : Nat
deriving DecidableEq, Repr

/-- A decimal digit character mapped to its value. -/
def decDigit? (c : Char) : Option Nat :=
  if 48 ≤ c.toNat ∧ c.toNat ≤ 57 then some (c.toNat - 48) else none

/-- One dotted-quad component: 1 to 3 decimal digits, value at most 255,
no leading zero. -/
def decOctet? (cs : List Char) : Option Nat :=
  match cs with
  | [c1] => decDigit? c1
  | [c1, c2] =>
    match decDigit? c1, decDigit? c2 with
    | some a, some b => if a ≠ 0 then some (a * 10 + b) else none
    | _, _ => none
  | [c1, c2, c3] =>
    match decDigit? c1, decDigit? c2, decDigit? c3 with
    | some a, some b, some c =>
      if a ≠ 0 ∧ a * 100 + b * 10 + c ≤ 255 then some (a * 100 + b * 10 + c) else none
    | _, _, _ => none
  | _ => none

/-- Split a character list on the dot character. -/
def splitOnDot : List Char → List (List Char)
  | [] => [[]]
  | c :: rest =>
    if c = '.' then [] :: splitOnDot rest
    else
      match splitOnDot rest with
      | g :: gs => (c :: g) :: gs
      | [] => [[c]]

/-- Split a character list on single colons. -/
def splitOnColon : List Char → List (List Char)
  | [] => [[]]
  | c :: rest =>
    if c = ':' then [] :: splitOnColon rest
    else
      match splitOnColon rest with
      | g :: gs => (c :: g) :: gs
      | [] => [[c]]

/-- Split a character list on the first-match occurrences of a double
colon. -/
def splitOnDColon : List Char → List (List Char)
  | [] => [[]]
  | [c] => [[c]]
  | c1 :: c2 :: rest =>
    if c1 = ':' ∧ c2 = ':' then [] :: splitOnDColon rest
    else
      match splitOnDColon (c2 :: rest) with
      | g :: gs => (c1 :: g) :: gs
      | [] => [[c1]]

/-- Effectful map over a list in the Option monad, failing on the first
failing element. -/
def mapOption (f : α → Option β) : List α → Option (List β)
  | [] => some []
  | a :: as =>
    match f a, mapOption f as with
    | some b, some bs => some (b :: bs)
    | _, _ => none

/-- Parse a dotted-quad IPv4 string into its 32-bit value. -/
def parseIPv4 (s : String) : Option Nat :=
  match mapOption decOctet? (splitOnDot s.data) with
  | some [a, b, c, d] => some (((a * 256 + b) * 256 + c) * 256 + d)
  | _ => none

/-- A hexadecimal digit character mapped to its value. -/
def hexDigit? (c : Char) : Option Nat :=
  if 48 ≤ c.toNat ∧ c.toNat ≤ 57 then some (c.toNat - 48)
  else if 97 ≤ c.toNat ∧ c.toNat ≤ 102 then some (c.toNat - 87)
  else if 65 ≤ c.toNat ∧ c.toNat ≤ 70 then some (c.toNat - 55)
  else none

/-- One IPv6 group: 1 to 4 hexadecimal digits. -/
def hexGroup? (cs : List Char) : Option Nat :=
  match cs with
  | [c1] => hexDigit? c1
  | [c1, c2] =>
    match hexDigit? c1, hexDigit? c2 with
    | some a, some b => some (a * 16 + b)
    | _, _ => none
  | [c1, c2, c3] =>
    match hexDigit? c1, hexDigit? c2, hexDigit? c3 with
    | some a, some b, some c => some ((a * 16 + b) * 16 + c)
    | _, _, _ => none
  | [c1, c2, c3, c4] =>
    match hexDigit? c1, hexDigit? c2, hexDigit? c3, hexDigit? c4 with
    | some a, some b, some c, some d => some (((a * 16 + b) * 16 + c) * 16 + d)
    | _, _, _, _ => none
  | _ => none

/-- Assemble exactly eight 16-bit groups into a 128-bit value. -/
def v6val (ws : List Nat) : Option Nat :=
  match ws with
  | [a, b, c, d, e, f, g, h] =>
    some (((((((a * 65536 + b) * 65536 + c) * 65536 + d) * 65536 + e) * 65536
      + f) * 65536 + g) * 65536 + h)
  | _ => none

/-- Parse an IPv6 string (full form or with one `::` abbreviation) into
its 128-bit value. -/
def parseIPv6 (s : String) : Option Nat :=
  match splitOnDColon s.data with
  | [t] =>
    match mapOption hexGroup? (splitOnColon t) with
    | some ws => v6val ws
    | none => none
  | [l, r] =>
    match (if l = [] then some [] else mapOption hexGroup? (splitOnColon l)),
          (if r = [] then some [] else mapOption hexGroup? (splitOnColon r)) with
    | some lw, some rw =>
      if lw.length + rw.length ≤ 7 then
        v6val (lw ++ List.replicate (8 - (lw.length + rw.length)) 0 ++ rw)
      else none
    | _, _ => none
  | _ => none

/-- netaddr `IPAddress(str)`: an address string containing a colon is
parsed as IPv6, otherwise as dotted-quad IPv4. -/
def IPAddress_ofString (s : String) : Option IPAddress :=
  if s.data.contains ':' then (parseIPv6 s).map (fun v => ⟨IPVersion.v6, v⟩)
  else (parseIPv4 s).map (fun v => ⟨IPVersion.v4, v⟩)

/-- netaddr `IPAddress(int)`: a bare integer is read as IPv4 when it
fits in 32 bits, as IPv6 when it fits in 128 bits, and rejected
otherwise. -/
def IPAddress_ofNat (n : Nat) : Option IPAddress :=
  if n < 2 ^ 32 then some ⟨IPVersion.v4, n⟩
  else if n < 2 ^ 128 then some ⟨IPVersion.v6, n⟩
  else none

/-- Render one hexadecimal digit value as a lowercase character. -/
def hexDigitChar (d : Nat) : Char :=
  if d < 10 then Char.ofNat (48 + d) else Char.ofNat (87 + d)

/-- Render a 16-bit group in lowercase hex without leading zeros. -/
def hexWord (w : Nat) : String :=
  if w < 16 then String.mk [hexDigitChar w]
  else if w < 256 then String.mk [hexDigitChar (w / 16), hexDigitChar (w % 16)]
  else if w < 4096 then
    String.mk [hexDigitChar (w / 256), hexDigitChar (w / 16 % 16), hexDigitChar (w % 16)]
  else
    String.mk [hexDigitChar (w / 4096), hexDigitChar (w / 256 % 16),
      hexDigitChar (w / 16 % 16), hexDigitChar (w % 16)]

/-- Dotted-quad rendering of a 32-bit value. -/
def formatIPv4 (n : Nat) : String :=
  toString (n / 16777216 % 256) ++ "." ++ toString (n / 65536 % 256) ++ "."
    ++ toString (n / 256 % 256) ++ "." ++ toString (n % 256)

/-- The eight 16-bit groups of a 128-bit value, most significant first. -/
def v6words (n : Nat) : List Nat :=
  [n / 2 ^ 112 % 65536, n / 2 ^ 96 % 65536, n / 2 ^ 80 % 65536, n / 2 ^ 64 % 65536,
   n / 2 ^ 48 % 65536, n / 2 ^ 32 % 65536, n / 2 ^ 16 % 65536, n % 65536]

/-- Length of the leading run of zero groups. -/
def zrun : List Nat → Nat
  | 0 :: rest => zrun rest + 1
  | _ => 0

/-- Leftmost longest run of at least two zero groups, as (start, length). -/
def bestRun (ws : List Nat) : Option (Nat × Nat) :=
  let cands := (List.range ws.length).map (fun i => (i, zrun (ws.drop i)))
  let best := cands.foldl (fun acc c => if acc.2 < c.2 then c else acc) (0, 0)
  if 2 ≤ best.2 then some best else none

/-- Join rendered groups with colons. -/
def joinColon (ws : List Nat) : String :=
  String.intercalate ":" (ws.map hexWord)

/-- Compact IPv6 rendering: hex groups joined by colons with the
leftmost longest zero run abbreviated to a double colon. -/
def formatIPv6 (n : Nat) : String :=
  let ws := v6words n
  match bestRun ws with
  | none => joinColon ws
  | some (i, len) => joinColon (List.take i ws) ++ "::" ++ joinColon (List.drop (i + len) ws)

/-- netaddr `str(IPAddress)`: render according to the address version. -/
def IPAddress.render (a : IPAddress) : String :=
  match a.version with
  | IPVersion.v4 => formatIPv4 a.val
  | IPVersion.v6 => formatIPv6 a.val

/-- `int_to_ip` from networking.py: `str(netaddr.IPAddress(int_val))`. -/
def int_to_ip (int_val : Nat) : Option String :=
  (IPAddress_ofNat int_val).map IPAddress.render

/-- `ip_to_int` from networking.py: `int(netaddr.IPAddress(str_val))`. -/
def ip_to_int (str_val : String) : Option Nat :=
  (IPAddress_ofString str_val).map IPAddress.val

/-- `ip_version` from networking.py: `int(netaddr.IPAddress(str_val).version)`. -/
def ip_version (str_val : String) : Option Nat :=
  (IPAddress_ofString str_val).map (fun a =>
    match a.version with
    | IPVersion.v4 => 4
    | IPVersion.v6 => 6)

/-- The canonical rendering of a valid address string:
`str(netaddr.IPAddress(s))`. -/
def canonical_form (s : String) : Option String :=
  (IPAddress_ofString s).map IPAddress.render

/-- `ip__str__` from networking.py: pure string formatting of
`"/ipv%i/%s:%i" % (ip_type, ip_str, port)`, with no validation. -/
def ip__str__ (ip_type : Int) (ip_str : String) (port : Int) : String :=
  "/ipv" ++ toString ip_type ++ "/" ++ ip_str ++ ":" ++ toString port

/-! ## External address discovery (src/bittensor/utils/networking.py)

`get_external_ip` runs six lookup mechanisms in a fixed order (curl
ifconfig.me, ipify, AWS checkip, curl myip.dnsomatic, urllib ident.me,
a Wikipedia response header).  Each lookup's outcome is an environment
input here: `none` when the lookup itself raised, `some s` when it
produced the text `s`.  A candidate is accepted when `ip_to_int`
succeeds on it; every failure is caught by the bare `except` and the
next mechanism is tried; `ExternalIPNotFound` is raised only when all
six fail. -/

inductive ExternalIPError where
  | ExternalIPNotFound
deriving DecidableEq, Repr

/-- One try-block of `get_external_ip`: take the lookup's outcome,
validate it with `ip_to_int`, and absorb any failure into `none`. -/
def try_candidate (c : Option String) : Option String :=
  match c with
  | none => none
  | some s =>
    match ip_to_int s with
    | some _ => some s
    | none => none

/-- First candidate accepted by its try-block, in list order. -/
def first_valid : List (Option String) → Option String
  | [] => none
  | c :: rest =>
    match try_candidate c with
    | some s => some s
    | none => first_valid rest

/-- `get_external_ip` from networking.py over the outcomes of its six
lookup mechanisms, in source order. -/
def get_external_ip (curl_ifconfig ipify aws dnsomatic identme wikipedia : Option String) :
    Except ExternalIPError String :=
  match first_valid [curl_ifconfig, ipify, aws, dnsomatic, identme, wikipedia] with
  | some s => Except.ok s
  | none => Except.error ExternalIPError.ExternalIPNotFound

/-! ## UPnP port mapper (src/bittensor/utils/networking.py)

`upnpc_create_port_map` probes `getspecificportmapping` starting at
the local port: while the probe reports an existing mapping and the
probed port is below 65536, it advances by one and probes again.  The
router's mapping table is the environment input `occupied`.  The fuel
argument bounds the loop; `65537 - port` steps always suffice because
the loop stops as soon as the port reaches 65536. -/

inductive UPNPCError where
  | NoAvailablePort
deriving DecidableEq, Repr

/-- The probe loop of `upnpc_create_port_map`: returns the final value
of `external_port`. -/
def find_free_port (occupied : Nat → Bool) : Nat → Nat → Nat
  | p, 0 => p
  | p, fuel + 1 =>
    if occupied p ∧ p < 65536 then find_free_port occupied (p + 1) fuel else p

/-- `upnpc_create_port_map` from networking.py: run the probe loop,
raise when the final probed port is still occupied, otherwise install
the mapping there and return it. -/
def upnpc_create_port_map (occupied : Nat → Bool) (port : Nat) : Except UPNPCError Nat :=
  let external_port := find_free_port occupied port (65537 - port)
  if occupied external_port then Except.error UPNPCError.NoAvailablePort
  else Except.ok external_port

/-! ## Tensor wire codec (src/bittensor/serialization.py)

`MSGPackSerializer.serialize_from_torch` packs the tensor's numpy copy
with msgpack (`msgpack_numpy` embeds the element type and dimension
list in the buffer) and fills the proto fields;
`deserialize_to_torch` maps the wire dtype back, unpacks the buffer,
reshapes with `view(shape)` and sets `requires_grad` from the proto.
A tensor value is its dtype, shape, flattened data and gradient flag;
msgpack's byte-level pack/unpack is embedded as the identity between
buffers and decoded containers (`none` standing for bytes msgpack
cannot decode).  The dtype mapping table lives in
`serialization_utils`, which is not under src/. -/

inductive TorchDtype where
  | float32
  | float64
  | int32
  | int64
deriving DecidableEq, Repr

inductive BittensorDtype where
  | FLOAT32
  | FLOAT64
  | INT32
  | INT64
  | UNKNOWN
deriving DecidableEq, Repr

/-- Modelled from the spec:
`serialization_utils.torch_dtype_to_bittensor_dtype` (serialization_utils.py
is not under src/) — the fixed bidirectional dtype mapping table, in
which every supported scalar type has exactly one wire dtype. -/
def torch_dtype_to_bittensor_dtype : TorchDtype → BittensorDtype
  | TorchDtype.float32 => BittensorDtype.FLOAT32
  | TorchDtype.float64 => BittensorDtype.FLOAT64
  | TorchDtype.int32 => BittensorDtype.INT32
  | TorchDtype.int64 => BittensorDtype.INT64

/-- Modelled from the spec:
`serialization_utils.bittensor_dtype_to_torch_dtype` (serialization_utils.py
is not under src/) — inverse direction of the dtype table, failing on a
wire dtype with no mapped scalar type. -/
def bittensor_dtype_to_torch_dtype : BittensorDtype → Option TorchDtype
  | BittensorDtype.FLOAT32 => some TorchDtype.float32
  | BittensorDtype.FLOAT64 => some TorchDtype.float64
  | BittensorDtype.INT32 => some TorchDtype.int32
  | BittensorDtype.INT64 => some TorchDtype.int64
  | BittensorDtype.UNKNOWN => none

inductive Modality where
  | TENSOR
  | TEXT
  | IMAGE
deriving DecidableEq, Repr

/-- Modelled from the spec: the closed `bittensor.proto.TensorType`
enumeration (the proto definition is not under src/); the numeric
values follow declaration order. -/
def TensorType_TORCH : Nat := 0

def TensorType_NUMPY : Nat := 1

def TensorType_TENSORFLOW : Nat := 2

/-- Modelled from the spec: the `bittensor.proto.Serializer` tag for
the single supported codec kind. -/
def Serializer_MSGPACK : Nat := 0

/-- Protocol version constant standing for `bittensor.__version__`. -/
def bittensor_version : Nat := 1

/-- A torch tensor value: element type, dimensions, flattened data and
gradient-tracking flag.  A well-formed tensor has
`data.length = shape.prod`. -/
structure TorchTensor where
  dtype : TorchDtype
  shape : List Nat
  data : List Int
  requires_grad : Bool
deriving DecidableEq, Repr

/-- The self-describing container `msgpack_numpy` encodes into the wire
buffer: element type tag, dimension list and flattened data. -/
structure MsgpackBuffer where
  elemType : TorchDtype
  dims : List Nat
  payload : List Int
deriving DecidableEq, Repr

/-- `bittensor.proto.Tensor`.  The buffer is `none` exactly for byte
strings msgpack cannot decode. -/
structure TensorProto where
  version : Nat
  buffer : Option MsgpackBuffer
  shape : List Nat
  dtype : BittensorDtype
  serializer : Nat
  tensor_type : Nat
  modality : Modality
  requires_grad : Bool
deriving DecidableEq, Repr

/-- `msgpack.packb` with `msgpack_numpy.encode`: always yields a
decodable buffer. -/
def msgpack_packb (b : MsgpackBuffer) : Option MsgpackBuffer := some b

/-- `msgpack.unpackb` with `msgpack_numpy.decode`: inverse of `packb`,
failing on undecodable bytes. -/
def msgpack_unpackb (buffer : Option MsgpackBuffer) : Option MsgpackBuffer := buffer

/-- Whether a scalar type is a floating-point type: torch permits
`requires_grad` only on these. -/
def TorchDtype.is_floating : TorchDtype → Bool
  | TorchDtype.float32 => true
  | TorchDtype.float64 => true
  | TorchDtype.int32 => false
  | TorchDtype.int64 => false

/-- `MSGPackSerializer.serialize_from_torch`.  The conversion
`torch_tensor.cpu().numpy().copy()` has no `.detach()`, so torch
raises RuntimeError for every tensor with `requires_grad=True`
(embedded as `none`); otherwise the proto is filled from the tensor. -/
def serialize_from_torch (torch_tensor : TorchTensor) (modality : Modality) :
    Option TensorProto :=
  if torch_tensor.requires_grad then none
  else
    some
      { version := bittensor_version
      , buffer := msgpack_packb
          { elemType := torch_tensor.dtype, dims := torch_tensor.shape
          , payload := torch_tensor.data }
      , shape := torch_tensor.shape
      , dtype := torch_dtype_to_bittensor_dtype torch_tensor.dtype
      , serializer := Serializer_MSGPACK
      , tensor_type := TensorType_TORCH
      , modality := modality
      , requires_grad := torch_tensor.requires_grad }

/-- `MSGPackSerializer.deserialize_to_torch`: dtype lookup, unpack,
`view(shape)` (which requires the element count to match the shape),
`requires_grad_` from the proto — applied while the tensor still has
the buffer's element type, and raising when the flag is set on a
non-floating type — then the cast to the mapped dtype. -/
def deserialize_to_torch (torch_proto : TensorProto) : Option TorchTensor :=
  match bittensor_dtype_to_torch_dtype torch_proto.dtype with
  | none => none
  | some dt =>
    match msgpack_unpackb torch_proto.buffer with
    | none => none
    | some np =>
      if np.payload.length = torch_proto.shape.prod then
        if torch_proto.requires_grad && !np.elemType.is_floating then none
        else
          some { dtype := dt, shape := torch_proto.shape, data := np.payload
               , requires_grad := torch_proto.requires_grad }
      else none

inductive SerializationError where
  | SerializationTypeNotImplemented
  | DeserializationFailed
  | RuntimeFailed
deriving DecidableEq, Repr

/-- `MSGPackSerializer.serialize`: the framework-tag dispatch of
`BittensorSerializerBase.serialize`.  The TORCH branch is implemented;
the NUMPY and TENSORFLOW branches fall through to the base-class
methods, which raise `SerializationTypeNotImplementedException`, and
any tag outside the enumeration raises it directly. -/
def MSGPackSerializer_serialize (tensor_obj : TorchTensor) (modality : Modality)
    (from_type : Nat) : Except SerializationError TensorProto :=
  if from_type = TensorType_TORCH then
    match serialize_from_torch tensor_obj modality with
    | some p => Except.ok p
    | none => Except.error SerializationError.RuntimeFailed
  else if from_type = TensorType_NUMPY then
    Except.error SerializationError.SerializationTypeNotImplemented
  else if from_type = TensorType_TENSORFLOW then
    Except.error SerializationError.SerializationTypeNotImplemented
  else Except.error SerializationError.SerializationTypeNotImplemented

/-- `MSGPackSerializer.deserialize`: the framework-tag dispatch of
`BittensorSerializerBase.deserialize`. -/
def MSGPackSerializer_deserialize (tensor_pb2 : TensorProto)
    (to_type : Nat) : Except SerializationError TorchTensor :=
  if to_type = TensorType_TORCH then
    match deserialize_to_torch tensor_pb2 with
    | some t => Except.ok t
    | none => Except.error SerializationError.DeserializationFailed
  else if to_type = TensorType_NUMPY then
    Except.error SerializationError.SerializationTypeNotImplemented
  else if to_type = TensorType_TENSORFLOW then
    Except.error SerializationError.SerializationTypeNotImplemented
  else Except.error SerializationError.SerializationTypeNotImplemented

/-! ## Axon request-validation state machine

axon.py is not under src/ (only src/tests/unit_tests/bittensor_tests/
test_axon.py is), so the machine is modelled from the spec, section
4.2, and checked for consistency against those tests. -/

/-- Modelled from the spec: the closed ReturnCode enumeration of
section 6. -/
inductive ReturnCode where
  | Success
  | NotServingSynapse
  | EmptyRequest
  | InvalidRequest
  | RequestDeserializationException
  | NotImplemented
  | UnknownException
deriving DecidableEq, Repr

/-- Modelled from the spec: the HandlerCapability of section 3 —
`forward(tensor) -> (tensor, message, code)` and
`backward(tensor, tensor) -> (tensor, message, code)`. -/
structure Synapse where
  forward : TorchTensor → TorchTensor × String × ReturnCode
  backward : TorchTensor → TorchTensor → TorchTensor × String × ReturnCode

/-- Modelled from the spec: the RequestMessage of section 3
(`bittensor.proto.TensorMessage`). -/
structure TensorMessage where
  version : Nat
  public_key : List Nat
  tensors : List TensorProto

/-- Modelled from the spec: the ResponseMessage of section 3. -/
structure ResponseMessage where
  return_code : ReturnCode
  message : String
  tensors : List TensorProto
deriving Repr

/-- Decode every wire tensor in order through the codec,
short-circuiting on the first failure. -/
def decode_tensors : List TensorProto → Option (List TorchTensor)
  | [] => some []
  | p :: ps =>
    match deserialize_to_torch p with
    | none => none
    | some x =>
      match decode_tensors ps with
      | none => none
      | some xs => some (x :: xs)

/-- Modelled from the spec: the forward path of the axon state machine
(section 4.2) — handler-presence check, emptiness check, in-order
decode, dispatch to the handler's forward operation, and re-encoding
of a successful result with the input's modality.  An encode-side
failure is fatal to the request and maps to UnknownException
(section 7). -/
def Axon.Forward (synapse : Option Synapse) (request : TensorMessage) : ResponseMessage :=
  match synapse with
  | none =>
    { return_code := ReturnCode.NotServingSynapse
    , message := "axon is not serving a synapse", tensors := [] }
  | some syn =>
    match request.tensors with
    | [] => { return_code := ReturnCode.EmptyRequest, message := "request is empty", tensors := [] }
    | p :: ps =>
      match deserialize_to_torch p, decode_tensors ps with
      | some x, some _ =>
        let r := syn.forward x
        if r.2.2 = ReturnCode.Success then
          match serialize_from_torch r.1 p.modality with
          | some out =>
            { return_code := ReturnCode.Success, message := r.2.1, tensors := [out] }
          | none =>
            { return_code := ReturnCode.UnknownException
            , message := "unknown exception", tensors := [] }
        else { return_code := r.2.2, message := r.2.1, tensors := [] }
      | _, _ =>
        { return_code := ReturnCode.RequestDeserializationException
        , message := "request deserialization exception", tensors := [] }

/-- Modelled from the spec: the backward path of the axon state
machine (section 4.2) — handler-presence check, exactly-two-tensors
check, decode of both tensors, dispatch to the handler's backward
operation, and re-encoding of a successful gradient.  An encode-side
failure is fatal to the request and maps to UnknownException
(section 7). -/
def Axon.Backward (synapse : Option Synapse) (request : TensorMessage) : ResponseMessage :=
  match synapse with
  | none =>
    { return_code := ReturnCode.NotServingSynapse
    , message := "axon is not serving a synapse", tensors := [] }
  | some syn =>
    match request.tensors with
    | [p1, p2] =>
      match deserialize_to_torch p1, deserialize_to_torch p2 with
      | some x, some g =>
        let r := syn.backward x g
        if r.2.2 = ReturnCode.Success then
          match serialize_from_torch r.1 p1.modality with
          | some out =>
            { return_code := ReturnCode.Success, message := r.2.1, tensors := [out] }
          | none =>
            { return_code := ReturnCode.UnknownException
            , message := "unknown exception", tensors := [] }
        else { return_code := r.2.2, message := r.2.1, tensors := [] }
      | _, _ =>
        { return_code := ReturnCode.RequestDeserializationException
        , message := "request deserialization exception", tensors := [] }
    | _ =>
      { return_code := ReturnCode.InvalidRequest, message := "invalid request", tensors := [] }

/-- A handler that echoes its first argument with code Success, as the
tests stub the nucleus. -/
def id_synapse : Synapse :=
  { forward := fun t => (t, "success", ReturnCode.Success)
  , backward := fun t _ => (t, "success", ReturnCode.Success) }

/-- A small well-formed float tensor of shape 3 x 3 x 1. -/
def sample_tensor : TorchTensor :=
  { dtype := TorchDtype.float32, shape := [3, 3, 1]
  , data := [0, 1, 2, 3, 4, 5, 6, 7, 8], requires_grad := false }

/-- The wire form of `sample_tensor` with TENSOR modality. -/
def sample_proto : TensorProto :=
  { version := bittensor_version
  , buffer := some
      { elemType := TorchDtype.float32, dims := [3, 3, 1]
      , payload := [0, 1, 2, 3, 4, 5, 6, 7, 8] }
  , shape := [3, 3, 1], dtype := BittensorDtype.FLOAT32
  , serializer := Serializer_MSGPACK, tensor_type := TensorType_TORCH
  , modality := Modality.TENSOR, requires_grad := false }

/-- A wire tensor whose buffer msgpack cannot decode. -/
def bad_proto : TensorProto :=
  { version := bittensor_version, buffer := none, shape := []
  , dtype := BittensorDtype.FLOAT32, serializer := Serializer_MSGPACK
  , tensor_type := TensorType_TORCH, modality := Modality.TENSOR
  , requires_grad := false }

/-- A gradient-tracking float tensor: the source serializer raises on
it at the numpy conversion. -/
def grad_tensor : TorchTensor :=
  { dtype := TorchDtype.float32, shape := [1], data := [0], requires_grad := true }

/-- A decodable float wire tensor with the requires_grad flag set: it
deserializes to `grad_tensor`. -/
def grad_proto : TensorProto :=
  { version := bittensor_version
  , buffer := some { elemType := TorchDtype.float32, dims := [1], payload := [0] }
  , shape := [1], dtype := BittensorDtype.FLOAT32
  , serializer := Serializer_MSGPACK, tensor_type := TensorType_TORCH
  , modality := Modality.TENSOR, requires_grad := true }

/-! ## Helper lemmas: address parser bounds -/

theorem decDigit_le {c : Char} {d : Nat} (h : decDigit? c = some d) : d ≤ 9 := by
  unfold decDigit? at h
  split at h
  next hc =>
    simp only [Option.some.injEq] at h
    omega
  next => exact Option.noConfusion h

theorem hexDigit_le {c : Char} {d : Nat} (h : hexDigit? c = some d) : d ≤ 15 := by
  unfold hexDigit? at h
  split at h
  next hc => simp only [Option.some.injEq] at h; omega
  next =>
    split at h
    next hc => simp only [Option.some.injEq] at h; omega
    next =>
      split at h
      next hc => simp only [Option.some.injEq] at h; omega
      next => exact Option.noConfusion h

theorem decOctet_le {cs : List Char} {n : Nat} (h : decOctet? cs = some n) : n ≤ 255 := by
  unfold decOctet? at h
  split at h
  · exact le_trans (decDigit_le h) (by omega)
  · split at h
    next a b ha hb =>
      split at h
      · simp only [Option.some.injEq] at h
        have := decDigit_le ha
        have := decDigit_le hb
        omega
      · exact Option.noConfusion h
    next => exact Option.noConfusion h
  · split at h
    next a b c ha hb hc =>
      split at h
      next hcond =>
        simp only [Option.some.injEq] at h
        omega
      next => exact Option.noConfusion h
    next => exact Option.noConfusion h
  · exact Option.noConfusion h

theorem hexGroup_le {cs : List Char} {n : Nat} (h : hexGroup? cs = some n) : n ≤ 65535 := by
  unfold hexGroup? at h
  split at h
  · exact le_trans (hexDigit_le h) (by omega)
  · split at h
    next a b ha hb =>
      simp only [Option.some.injEq] at h
      have := hexDigit_le ha
      have := hexDigit_le hb
      omega
    next => exact Option.noConfusion h
  · split at h
    next a b c ha hb hc =>
      simp only [Option.some.injEq] at h
      have := hexDigit_le ha
      have := hexDigit_le hb
      have := hexDigit_le hc
      omega
    next => exact Option.noConfusion h
  · split at h
    next a b c d ha hb hc hd =>
      simp only [Option.some.injEq] at h
      have := hexDigit_le ha
      have := hexDigit_le hb
      have := hexDigit_le hc
      have := hexDigit_le hd
      omega
    next => exact Option.noConfusion h
  · exact Option.noConfusion h

theorem mapOption_bound {α : Type} {B : Nat} {f : α → Option Nat} {l : List α}
    {ws : List Nat} (hf : ∀ a w, f a = some w → w ≤ B)
    (h : mapOption f l = some ws) : ∀ w ∈ ws, w ≤ B := by
  induction l generalizing ws with
  | nil =>
    unfold mapOption at h
    simp only [Option.some.injEq] at h
    subst h
    simp
  | cons a as ih =>
    unfold mapOption at h
    split at h
    next b bs hb hbs =>
      simp only [Option.some.injEq] at h
      subst h
      intro w hw
      rcases List.mem_cons.mp hw with rfl | hw
      · exact hf _ _ hb
      · exact ih hbs w hw
    next => exact Option.noConfusion h

theorem parseIPv4_lt {s : String} {v : Nat} (h : parseIPv4 s = some v) : v < 2 ^ 32 := by
  unfold parseIPv4 at h
  split at h
  next a b c d heq =>
    simp only [Option.some.injEq] at h
    have hm := mapOption_bound (fun cs w hw => decOctet_le hw) heq
    have ha : a ≤ 255 := hm a (by simp)
    have hb : b ≤ 255 := hm b (by simp)
    have hc : c ≤ 255 := hm c (by simp)
    have hd : d ≤ 255 := hm d (by simp)
    omega
  next => exact Option.noConfusion h

theorem v6val_lt {ws : List Nat} {v : Nat} (hb : ∀ w ∈ ws, w ≤ 65535)
    (h : v6val ws = some v) : v < 2 ^ 128 := by
  unfold v6val at h
  split at h
  next a b c d e f g w8 =>
    simp only [Option.some.injEq] at h
    have ha : a ≤ 65535 := hb a (by simp)
    have hb2 : b ≤ 65535 := hb b (by simp)
    have hc : c ≤ 65535 := hb c (by simp)
    have hd : d ≤ 65535 := hb d (by simp)
    have he : e ≤ 65535 := hb e (by simp)
    have hf : f ≤ 65535 := hb f (by simp)
    have hg : g ≤ 65535 := hb g (by simp)
    have hw8 : w8 ≤ 65535 := hb w8 (by simp)
    omega
  next => exact Option.noConfusion h

theorem parseIPv6_lt {s : String} {v : Nat} (h : parseIPv6 s = some v) : v < 2 ^ 128 := by
  unfold parseIPv6 at h
  split at h
  next t =>
    split at h
    next ws hws =>
      exact v6val_lt (mapOption_bound (fun cs w hw => hexGroup_le hw) hws) h
    next => exact Option.noConfusion h
  next =>
    split at h
    next lw rw hlw hrw =>
      split at h
      next hlen =>
        refine v6val_lt ?_ h
        intro w hw
        have hl : ∀ w ∈ lw, w ≤ 65535 := by
          split at hlw
          · simp only [Option.some.injEq] at hlw
            subst hlw
            simp
          · exact mapOption_bound (fun cs w hw => hexGroup_le hw) hlw
        have hr : ∀ w ∈ rw, w ≤ 65535 := by
          split at hrw
          · simp only [Option.some.injEq] at hrw
            subst hrw
            simp
          · exact mapOption_bound (fun cs w hw => hexGroup_le hw) hrw
        rcases List.mem_append.mp hw with hw | hw
        · rcases List.mem_append.mp hw with hw | hw
          · exact hl w hw
          · have := List.eq_of_mem_replicate hw
            omega
        · exact hr w hw
      next => exact Option.noConfusion h
    next => exact Option.noConfusion h
  next => exact Option.noConfusion h

/-! ## Claim theorems: address codec, discovery, port mapper -/

/-- C8 (amended): for every valid IPv4 string, composing `ip_to_int`
with `int_to_ip` yields the canonical form, and likewise for every
valid IPv6 string whose integer value is at least 2^32; but an IPv6
string whose value fits in 32 bits comes back as the dotted-quad IPv4
rendering of that integer instead of its canonical IPv6 form.
`ip_version` returns 4 on IPv4 forms and 6 on IPv6 forms, and all
three functions fail on malformed input rather than returning a
best-effort value. -/
theorem address_codec_round_trip :
    (∀ (s : String) (a : IPAddress), IPAddress_ofString s = some a →
      (a.version = IPVersion.v4 →
        a.val < 2 ^ 32 ∧ ip_version s = some 4 ∧ int_to_ip a.val = canonical_form s) ∧
      (a.version = IPVersion.v6 →
        a.val < 2 ^ 128 ∧ ip_version s = some 6 ∧
        (2 ^ 32 ≤ a.val → int_to_ip a.val = canonical_form s) ∧
        (a.val < 2 ^ 32 → int_to_ip a.val = some (formatIPv4 a.val)))) ∧
    (∀ s : String, IPAddress_ofString s = none → ip_to_int s = none ∧ ip_version s = none) ∧
    (∀ n : Nat, 2 ^ 128 ≤ n → int_to_ip n = none) := by
  refine ⟨?_, ?_, ?_⟩
  · intro s a ha
    have ha' := ha
    unfold IPAddress_ofString at ha'
    split at ha'
    next hc =>
      rcases Option.map_eq_some'.mp ha' with ⟨v, hv, hav⟩
      subst hav
      have hlt : v < 2 ^ 128 := parseIPv6_lt hv
      constructor
      · intro h4
        exact absurd h4 (by simp)
      · intro _
        refine ⟨hlt, ?_, ?_, ?_⟩
        · simp only [ip_version, ha, Option.map_some']
        · intro hge
          have hge' : 2 ^ 32 ≤ v := hge
          show (IPAddress_ofNat v).map IPAddress.render = canonical_form s
          unfold IPAddress_ofNat
          rw [if_neg (by omega), if_pos hlt]
          simp only [canonical_form, ha, Option.map_some']
        · intro hlt32
          have hlt32' : v < 2 ^ 32 := hlt32
          show (IPAddress_ofNat v).map IPAddress.render = some (formatIPv4 v)
          unfold IPAddress_ofNat
          rw [if_pos hlt32']
          rfl
    next hc =>
      rcases Option.map_eq_some'.mp ha' with ⟨v, hv, hav⟩
      subst hav
      have hlt : v < 2 ^ 32 := parseIPv4_lt hv
      constructor
      · intro _
        refine ⟨hlt, ?_, ?_⟩
        · simp only [ip_version, ha, Option.map_some']
        · show (IPAddress_ofNat v).map IPAddress.render = canonical_form s
          unfold IPAddress_ofNat
          rw [if_pos hlt]
          simp only [canonical_form, ha, Option.map_some']
      · intro h6
        exact absurd h6 (by simp)
  · intro s h
    constructor
    · simp [ip_to_int, h]
    · simp [ip_version, h]
  · intro n hn
    simp only [int_to_ip, IPAddress_ofNat]
    rw [if_neg (by omega), if_neg (by omega)]
    rfl

/-- C8 counterexample: the IPv6 address `::1` has integer value 1, but
`int_to_ip 1` renders the IPv4 address `0.0.0.1`, not the canonical
form `::1`, so `int_to_ip` is not an exact inverse of `ip_to_int` over
the full 128-bit domain. -/
theorem address_codec_round_trip_counterexample :
    ip_to_int "::1" = some 1 ∧ int_to_ip 1 = some "0.0.0.1" ∧
    canonical_form "::1" = some "::1" ∧ int_to_ip 1 ≠ canonical_form "::1" := by
  refine ⟨by decide, by decide, by decide, by decide⟩

/-- Witness: the amended round trip evaluated at the IPv4 address
1.2.3.4 (integer value 16909060). -/
theorem address_codec_round_trip_witness :
    int_to_ip 16909060 = canonical_form "1.2.3.4" ∧ ip_version "1.2.3.4" = some 4 := by
  have h :=
    (address_codec_round_trip.1 "1.2.3.4" ⟨IPVersion.v4, 16909060⟩ (by decide)).1 rfl
  exact ⟨h.2.2, h.2.1⟩

/-- C10: `ip__str__` is total and performs no validation: for every
integer ip_type, every string and every integer port it returns the
formatted endpoint string — in particular for an ip_type that is
neither 4 nor 6 and a string the address codec rejects. -/
theorem ip__str___total_no_validation :
    (∀ (ip_type : Int) (ip_str : String) (port : Int),
      ip__str__ ip_type ip_str port
        = "/ipv" ++ toString ip_type ++ "/" ++ ip_str ++ ":" ++ toString port) ∧
    ip__str__ 7 "not-an-ip" (-1) = "/ipv7/not-an-ip:-1" ∧
    IPAddress_ofString "not-an-ip" = none := by
  refine ⟨fun t s p => rfl, by decide, by decide⟩

/-- C7: `get_external_ip` returns the first candidate in mechanism
order that the address codec validates; individual mechanism failures
are absorbed and only total failure produces `ExternalIPNotFound`. -/
theorem get_external_ip_ordered_fallback :
    (∀ c1 c2 c3 c4 c5 c6 : Option String,
      try_candidate c1 = none → try_candidate c2 = none → try_candidate c3 = none →
      try_candidate c4 = none → try_candidate c5 = none → try_candidate c6 = none →
      get_external_ip c1 c2 c3 c4 c5 c6
        = Except.error ExternalIPError.ExternalIPNotFound) ∧
    (∀ (pre post : List (Option String)) (c : Option String) (s : String),
      (∀ x ∈ pre, try_candidate x = none) → try_candidate c = some s →
      first_valid (pre ++ c :: post) = some s) ∧
    (∀ (c1 c3 c4 c5 c6 : Option String) (s : String) (n : Nat),
      try_candidate c1 = none → ip_to_int s = some n →
      get_external_ip c1 (some s) c3 c4 c5 c6 = Except.ok s) := by
  refine ⟨?_, ?_, ?_⟩
  · intro c1 c2 c3 c4 c5 c6 h1 h2 h3 h4 h5 h6
    simp [get_external_ip, first_valid, h1, h2, h3, h4, h5, h6]
  · intro pre post c s hpre hc
    induction pre with
    | nil => simp [first_valid, hc]
    | cons q qs ih =>
      have hq : try_candidate q = none := hpre q (by simp)
      simp only [List.cons_append, first_valid, hq]
      exact ih (fun x hx => hpre x (by simp [hx]))
  · intro c1 c3 c4 c5 c6 s n h1 hs
    have h2 : try_candidate (some s) = some s := by
      simp [try_candidate, hs]
    simp [get_external_ip, first_valid, h1, h2]

/-- Witness: the first mechanism returns text the codec rejects, the
second returns 1.2.3.4, and the result is the second mechanism's
value. -/
theorem get_external_ip_ordered_fallback_witness :
    get_external_ip (some "not an ip") (some "1.2.3.4") none none none none
      = Except.ok "1.2.3.4" :=
  get_external_ip_ordered_fallback.2.2 (some "not an ip") none none none none
    "1.2.3.4" 16909060 (by decide) (by decide)

/-- C6 (code bug): with every valid external port occupied (a mapping
exists at every port below 65536) and nothing mapped at 65536, the
probe loop started at local port 65530 advances past the upper bound
65535, probes port 65536, finds it free, and installs and returns that
out-of-range port instead of failing with `NoAvailablePort`. -/
theorem upnpc_create_port_map_probes_past_65535 :
    upnpc_create_port_map (fun p => decide (p < 65536)) 65530 = Except.ok 65536 := rfl

/-! ## Helper lemmas: wire codec -/

theorem dtype_map_round_trip (d : TorchDtype) :
    bittensor_dtype_to_torch_dtype (torch_dtype_to_bittensor_dtype d) = some d := by
  cases d <;> rfl

theorem deserialize_fields {p : TensorProto} {x : TorchTensor}
    (h : deserialize_to_torch p = some x) :
    x.shape = p.shape ∧ x.requires_grad = p.requires_grad ∧
      bittensor_dtype_to_torch_dtype p.dtype = some x.dtype := by
  unfold deserialize_to_torch at h
  split at h
  next => exact Option.noConfusion h
  next dt hdt =>
    split at h
    next => exact Option.noConfusion h
    next np hnp =>
      split at h
      next hlen =>
        split at h
        next => exact Option.noConfusion h
        next =>
          simp only [Option.some.injEq] at h
          subst h
          exact ⟨rfl, rfl, hdt⟩
      next => exact Option.noConfusion h

theorem serialize_fields {t : TorchTensor} {m : Modality} {p : TensorProto}
    (h : serialize_from_torch t m = some p) :
    p.shape = t.shape ∧ p.dtype = torch_dtype_to_bittensor_dtype t.dtype ∧
      t.requires_grad = false ∧ p.requires_grad = false := by
  unfold serialize_from_torch at h
  split at h
  next => exact Option.noConfusion h
  next hgrad =>
    have hg : t.requires_grad = false := by
      cases hrg : t.requires_grad
      · rfl
      · exact absurd hrg hgrad
    simp only [Option.some.injEq] at h
    subst h
    exact ⟨rfl, rfl, hg, hg⟩

theorem decode_tensors_append_none (xs rest : List TensorProto) (bad : TensorProto)
    (h : deserialize_to_torch bad = none) :
    decode_tensors (xs ++ bad :: rest) = none := by
  induction xs with
  | nil =>
    simp only [List.nil_append]
    unfold decode_tensors
    rw [h]
  | cons q qs ih =>
    simp only [List.cons_append]
    unfold decode_tensors
    cases hq : deserialize_to_torch q with
    | none => rfl
    | some x => rw [ih]

/-! ## Claim theorems: wire codec and axon -/

/-- C1 (amended): for every well-formed torch tensor with
requires_grad=False, serializing with the MSGPACK codec and
deserializing the result (source and target framework both TORCH)
returns the tensor exactly — element data, shape and dtype preserved —
and the requires_grad flag of every deserialized tensor is taken from
the wire tensor; but for every tensor with requires_grad=True the
numpy conversion inside serialize_from_torch raises, so no wire tensor
is produced and the round trip fails on gradient-tracking tensors. -/
theorem msgpack_torch_round_trip (t : TorchTensor) (m : Modality)
    (hwf : t.data.length = t.shape.prod) :
    (t.requires_grad = false →
      (serialize_from_torch t m).bind deserialize_to_torch = some t ∧
      ∃ p, serialize_from_torch t m = some p ∧ p.shape = t.shape ∧
        bittensor_dtype_to_torch_dtype p.dtype = some t.dtype) ∧
    (t.requires_grad = true → serialize_from_torch t m = none) ∧
    (∀ (p : TensorProto) (x : TorchTensor),
      deserialize_to_torch p = some x → x.requires_grad = p.requires_grad) := by
  refine ⟨?_, ?_, ?_⟩
  · intro hgrad
    obtain ⟨dt, sh, da, rg⟩ := t
    simp only at hwf hgrad
    subst hgrad
    constructor
    · simp [serialize_from_torch, deserialize_to_torch, msgpack_packb, msgpack_unpackb,
        dtype_map_round_trip, hwf, TorchDtype.is_floating]
    · have hser : serialize_from_torch ⟨dt, sh, da, false⟩ m
          = some
            { version := bittensor_version
            , buffer := msgpack_packb { elemType := dt, dims := sh, payload := da }
            , shape := sh, dtype := torch_dtype_to_bittensor_dtype dt
            , serializer := Serializer_MSGPACK, tensor_type := TensorType_TORCH
            , modality := m, requires_grad := false } := rfl
      exact ⟨_, hser, rfl, dtype_map_round_trip dt⟩
  · intro hgrad
    simp [serialize_from_torch, hgrad]
  · intro p x h
    exact (deserialize_fields h).2.1

/-- C1 counterexample: a well-formed gradient-tracking float tensor on
which serialize_from_torch fails (the numpy conversion raises for
requires_grad=True), so the round trip does not return the tensor. -/
theorem msgpack_torch_round_trip_counterexample :
    grad_tensor.data.length = grad_tensor.shape.prod ∧
    serialize_from_torch grad_tensor Modality.TENSOR = none ∧
    (serialize_from_torch grad_tensor Modality.TENSOR).bind deserialize_to_torch
      ≠ some grad_tensor := by
  refine ⟨by decide, by decide, by decide⟩

/-- Witness: the amended round trip evaluated at a concrete
3 x 3 x 1 float tensor without gradient tracking. -/
theorem msgpack_torch_round_trip_witness :
    (serialize_from_torch sample_tensor Modality.TENSOR).bind deserialize_to_torch
      = some sample_tensor :=
  ((msgpack_torch_round_trip sample_tensor Modality.TENSOR (by decide)).1 rfl).1

/-- C9: the MSGPACK codec's serialize and deserialize dispatch on the
framework tag of the closed enumeration TORCH, NUMPY, TENSORFLOW;
every tag other than TORCH — the two other members as well as any
value outside the enumeration — fails with
SerializationTypeNotImplementedException and produces no wire
tensor. -/
theorem serializer_dispatch_unimplemented (t : TorchTensor) (m : Modality)
    (p : TensorProto) (tag : Nat) (h : tag ≠ TensorType_TORCH) :
    MSGPackSerializer_serialize t m tag
      = Except.error SerializationError.SerializationTypeNotImplemented ∧
    MSGPackSerializer_deserialize p tag
      = Except.error SerializationError.SerializationTypeNotImplemented := by
  constructor
  · unfold MSGPackSerializer_serialize
    rw [if_neg h]
    split
    · rfl
    · split <;> rfl
  · unfold MSGPackSerializer_deserialize
    rw [if_neg h]
    split
    · rfl
    · split <;> rfl

/-- Witness: dispatch evaluated at the NUMPY tag. -/
theorem serializer_dispatch_unimplemented_witness :
    MSGPackSerializer_serialize sample_tensor Modality.TENSOR TensorType_NUMPY
      = Except.error SerializationError.SerializationTypeNotImplemented ∧
    MSGPackSerializer_deserialize bad_proto TensorType_NUMPY
      = Except.error SerializationError.SerializationTypeNotImplemented :=
  serializer_dispatch_unimplemented sample_tensor Modality.TENSOR bad_proto
    TensorType_NUMPY (by decide)

/-- C2: with no synapse served, Forward and Backward reject every
request with NotServingSynapse, before any other validation — in
particular a request with zero tensors still yields NotServingSynapse,
not EmptyRequest or InvalidRequest. -/
theorem axon_not_serving (request : TensorMessage) :
    (Axon.Forward none request).return_code = ReturnCode.NotServingSynapse ∧
    (Axon.Backward none request).return_code = ReturnCode.NotServingSynapse :=
  ⟨rfl, rfl⟩

/-- C3: with a synapse served, Forward on an empty tensor sequence
returns EmptyRequest, while Backward on any tensor count other than
exactly two — zero and one included — returns InvalidRequest, a code
distinct from EmptyRequest. -/
theorem axon_cardinality_checks :
    (∀ (syn : Synapse) (v : Nat) (k : List Nat),
      (Axon.Forward (some syn) ⟨v, k, []⟩).return_code = ReturnCode.EmptyRequest) ∧
    (∀ (syn : Synapse) (request : TensorMessage), request.tensors.length ≠ 2 →
      (Axon.Backward (some syn) request).return_code = ReturnCode.InvalidRequest) ∧
    ReturnCode.EmptyRequest ≠ ReturnCode.InvalidRequest := by
  refine ⟨fun syn v k => rfl, ?_, by decide⟩
  intro syn request h
  obtain ⟨v, k, ts⟩ := request
  simp only at h
  cases ts with
  | nil => rfl
  | cons p1 ts1 =>
    cases ts1 with
    | nil => rfl
    | cons p2 ts2 =>
      cases ts2 with
      | nil => simp at h
      | cons p3 ts3 => rfl

/-- Witness: an empty forward request and a single-tensor backward
request with a served synapse. -/
theorem axon_cardinality_checks_witness :
    (Axon.Forward (some id_synapse) ⟨1, [], []⟩).return_code = ReturnCode.EmptyRequest ∧
    (Axon.Backward (some id_synapse) ⟨1, [], [bad_proto]⟩).return_code
      = ReturnCode.InvalidRequest :=
  ⟨axon_cardinality_checks.1 id_synapse 1 [],
   axon_cardinality_checks.2.1 id_synapse ⟨1, [], [bad_proto]⟩ (by decide)⟩

/-- C4: with a synapse served, a request containing an undecodable
tensor yields RequestDeserializationException on both paths; the
forward response does not depend on the tensors after the first
failing one nor on the served handler (decoding short-circuits and the
handler is never invoked), and the backward path fails when either of
its two tensors fails to decode. -/
theorem axon_decode_failure_short_circuit :
    (∀ (syn syn' : Synapse) (v : Nat) (k : List Nat)
      (pre rest rest' : List TensorProto) (bad : TensorProto),
      deserialize_to_torch bad = none →
      (Axon.Forward (some syn) ⟨v, k, pre ++ bad :: rest⟩).return_code
        = ReturnCode.RequestDeserializationException ∧
      Axon.Forward (some syn) ⟨v, k, pre ++ bad :: rest⟩
        = Axon.Forward (some syn') ⟨v, k, pre ++ bad :: rest'⟩) ∧
    (∀ (syn : Synapse) (v : Nat) (k : List Nat) (p1 p2 : TensorProto),
      deserialize_to_torch p1 = none ∨ deserialize_to_torch p2 = none →
      (Axon.Backward (some syn) ⟨v, k, [p1, p2]⟩).return_code
        = ReturnCode.RequestDeserializationException) := by
  constructor
  · intro syn syn' v k pre rest rest' bad hbad
    cases pre with
    | nil =>
      constructor
      · simp [Axon.Forward, hbad]
      · simp [Axon.Forward, hbad]
    | cons q qs =>
      have h1 := decode_tensors_append_none qs rest bad hbad
      have h2 := decode_tensors_append_none qs rest' bad hbad
      constructor
      · simp only [List.cons_append, Axon.Forward, h1]
        cases hq : deserialize_to_torch q <;> simp
      · simp only [List.cons_append, Axon.Forward, h1, h2]
        cases hq : deserialize_to_torch q <;> simp
  · intro syn v k p1 p2 h
    rcases h with h | h
    · simp [Axon.Backward, h]
    · cases hp1 : deserialize_to_torch p1 <;> simp [Axon.Backward, hp1, h]

/-- Witness: the short-circuit evaluated at a concrete undecodable
wire tensor. -/
theorem axon_decode_failure_short_circuit_witness :
    (Axon.Forward (some id_synapse) ⟨1, [], [bad_proto]⟩).return_code
      = ReturnCode.RequestDeserializationException ∧
    (Axon.Backward (some id_synapse) ⟨1, [], [bad_proto, bad_proto]⟩).return_code
      = ReturnCode.RequestDeserializationException :=
  ⟨(axon_decode_failure_short_circuit.1 id_synapse id_synapse 1 [] [] [] []
      bad_proto rfl).1,
   axon_decode_failure_short_circuit.2 id_synapse 1 [] bad_proto bad_proto
     (Or.inl rfl)⟩

/-- C5 (amended): with a synapse served and a decodable request, a
forward handler returning its input with code Success yields a Success
response with exactly one tensor — shape equal to the input wire
tensor's shape, wire dtype mapping back to the input's scalar type —
provided the result re-encodes, i.e. does not track gradients; when
the returned tensor has requires_grad=True the re-encode raises and
the request ends as UnknownException with no tensors; a backward
handler returning a re-encodable gradient with Success on a two-tensor
request yields Success with exactly one response tensor. -/
theorem axon_success_response (syn : Synapse) (v : Nat) (k : List Nat) :
    (∀ (p : TensorProto) (x : TorchTensor) (msg : String) (out : TensorProto),
      deserialize_to_torch p = some x →
      syn.forward x = (x, msg, ReturnCode.Success) →
      serialize_from_torch x p.modality = some out →
      (Axon.Forward (some syn) ⟨v, k, [p]⟩).return_code = ReturnCode.Success ∧
      (Axon.Forward (some syn) ⟨v, k, [p]⟩).tensors.map TensorProto.shape
        = [p.shape] ∧
      (Axon.Forward (some syn) ⟨v, k, [p]⟩).tensors.map
          (fun q => bittensor_dtype_to_torch_dtype q.dtype)
        = [bittensor_dtype_to_torch_dtype p.dtype]) ∧
    (∀ (p : TensorProto) (x : TorchTensor) (msg : String),
      deserialize_to_torch p = some x →
      syn.forward x = (x, msg, ReturnCode.Success) →
      serialize_from_torch x p.modality = none →
      (Axon.Forward (some syn) ⟨v, k, [p]⟩).return_code = ReturnCode.UnknownException ∧
      (Axon.Forward (some syn) ⟨v, k, [p]⟩).tensors = []) ∧
    (∀ (p1 p2 : TensorProto) (x g y : TorchTensor) (msg : String) (out : TensorProto),
      deserialize_to_torch p1 = some x → deserialize_to_torch p2 = some g →
      syn.backward x g = (y, msg, ReturnCode.Success) →
      serialize_from_torch y p1.modality = some out →
      (Axon.Backward (some syn) ⟨v, k, [p1, p2]⟩).return_code = ReturnCode.Success ∧
      (Axon.Backward (some syn) ⟨v, k, [p1, p2]⟩).tensors.length = 1) := by
  refine ⟨?_, ?_, ?_⟩
  · intro p x msg out hp hfwd hser
    have hd := deserialize_fields hp
    have hs := serialize_fields hser
    have hresp :
        Axon.Forward (some syn) ⟨v, k, [p]⟩
          = { return_code := ReturnCode.Success, message := msg, tensors := [out] } := by
      simp [Axon.Forward, decode_tensors, hp, hfwd, hser]
    rw [hresp]
    refine ⟨rfl, ?_, ?_⟩
    · simp [hs.1, hd.1]
    · simp only [List.map_cons, List.map_nil, hs.2.1, dtype_map_round_trip, hd.2.2]
  · intro p x msg hp hfwd hser
    have hresp :
        Axon.Forward (some syn) ⟨v, k, [p]⟩
          = { return_code := ReturnCode.UnknownException
            , message := "unknown exception", tensors := [] } := by
      simp [Axon.Forward, decode_tensors, hp, hfwd, hser]
    rw [hresp]
    exact ⟨rfl, rfl⟩
  · intro p1 p2 x g y msg out hp1 hp2 hbwd hser
    have hresp :
        Axon.Backward (some syn) ⟨v, k, [p1, p2]⟩
          = { return_code := ReturnCode.Success, message := msg, tensors := [out] } := by
      simp [Axon.Backward, hp1, hp2, hbwd, hser]
    rw [hresp]
    exact ⟨rfl, rfl⟩

/-- C5 counterexample: a decodable float wire tensor with
requires_grad set decodes to a gradient-tracking tensor; the echoing
handler returns it with code Success, but the re-encode raises at the
numpy conversion, so the response is UnknownException, not the Success
the original claim states. -/
theorem axon_success_response_counterexample :
    deserialize_to_torch grad_proto = some grad_tensor ∧
    id_synapse.forward grad_tensor = (grad_tensor, "success", ReturnCode.Success) ∧
    (Axon.Forward (some id_synapse) ⟨1, [], [grad_proto]⟩).return_code
      = ReturnCode.UnknownException ∧
    ReturnCode.UnknownException ≠ ReturnCode.Success := by
  refine ⟨by decide, rfl, by decide, by decide⟩

/-- Witness: the amended success path at a concrete serialized tensor
without gradient tracking, with the echoing handler. -/
theorem axon_success_response_witness :
    (Axon.Forward (some id_synapse) ⟨1, [], [sample_proto]⟩).return_code
      = ReturnCode.Success ∧
    (Axon.Backward (some id_synapse)
        ⟨1, [], [sample_proto, sample_proto]⟩).tensors.length = 1 :=
  ⟨((axon_success_response id_synapse 1 []).1 sample_proto sample_tensor "success"
      sample_proto (by decide) rfl (by decide)).1,
   ((axon_success_response id_synapse 1 []).2.2 sample_proto sample_proto
      sample_tensor sample_tensor sample_tensor "success" sample_proto
      (by decide) (by decide) rfl (by decide)).2⟩
